import Mathlib

/-!
Shallow embedding of the DIY assistant application (diy-assistant).

The repository contains two variants of the `App` component:
* build A ("variants/video"): auto-generates step visuals in sequence, then a
  variant batch; exposes a room-tour video controller (`videoUrl`,
  `isVideoLoading`, `variants`, `isVariantsLoading`).
* build B ("audio/night-tour"): auto-generates step visuals in sequence;
  exposes a summary-audio controller (`summaryAudioBuffer`, `isSummaryLoading`,
  `showSummaryPlayer`) and a night-tour video controller (`nightVideoUrl`,
  `isNightVideoLoading`).

JavaScript `Record` objects indexed by number or string are modelled as total
functions into `Option`, where `none` is an absent (or `undefined`) entry.
Asynchronous handlers are modelled as state transformers; where a handler
dispatches calls to the generation gateway (the functions of
`services/geminiService.ts`), the gateway is abstracted as a function argument
returning `Except` and the transformer also returns the number of gateway
calls it dispatches.
-/

/-- Errors thrown by gateway calls (`throw new Error(...)` in geminiService). -/
abbrev GenError := String

/-- `types.ts`: categories of a material (`'tool' | 'consumable' | 'furniture' | 'decor'`). -/
inductive MaterialCategory where
  | tool
  | consumable
  | furniture
  | decor
deriving DecidableEq, Repr

/-- `types.ts`: interface Material. -/
structure Material where
  name : String
  quantity : String
  estimatedCost : String
  category : MaterialCategory
deriving DecidableEq, Repr

/-- `types.ts`: per-step difficulty (`'Easy' | 'Medium' | 'Hard'`). -/
inductive Difficulty where
  | Easy
  | Medium
  | Hard
deriving DecidableEq, Repr

/-- `types.ts`: plan-level difficulty (`'Beginner' | 'Intermediate' | 'Advanced'`). -/
inductive DifficultyLevel where
  | Beginner
  | Intermediate
  | Advanced
deriving DecidableEq, Repr

/-- `types.ts`: interface Step. -/
structure Step where
  stepNumber : Nat
  title : String
  instruction : String
  substeps : List String
  safetyWarning : Option String
  requiredTools : Option (List String)
  tip : Option String
  visualizationPrompt : String
  difficulty : Difficulty
  estimatedTime : String
deriving DecidableEq, Repr

/-- `types.ts`: interface DIYPlan. -/
structure DIYPlan where
  projectTitle : String
  description : String
  styleAnalysis : String
  difficultyLevel : DifficultyLevel
  estimatedTime : String
  estimatedTotalCost : String
  materials : List Material
  steps : List Step
deriving DecidableEq, Repr

/-- `types.ts`: enum AppState. -/
inductive AppState where
  | INPUT
  | ANALYZING
  | RESULT
  | ERROR
deriving DecidableEq, Repr

/-- The component state of build A (the variants/video `App`), restricted to the
fields the orchestration logic reads or writes. `Record<number, string>` and
`Record<string, string>` state maps are functions into `Option String`. -/
structure OrchStateA where
  appState : AppState
  currentImage : Option String
  plan : Option DIYPlan
  stepVisuals : Nat → Option String
  generatingStepIndex : Option Nat
  completedSubsteps : String → Option Bool
  selectedMaterial : Option Material
  materialImages : String → Option String
  generatingMaterialImage : Bool
  videoUrl : Option String
  isVideoLoading : Bool
  variants : List (String × String)
  isVariantsLoading : Bool

/-- The component state of build B (the audio/night-tour `App`), restricted to
the fields the orchestration logic reads or writes. -/
structure OrchStateB where
  appState : AppState
  currentImage : Option String
  plan : Option DIYPlan
  stepVisuals : Nat → Option String
  generatingStepIndex : Option Nat
  completedSubsteps : String → Option Bool
  selectedMaterial : Option Material
  materialImages : String → Option String
  generatingMaterialImage : Bool
  summaryAudioBuffer : Option String
  isSummaryLoading : Bool
  showSummaryPlayer : Bool
  nightVideoUrl : Option String
  isNightVideoLoading : Bool

/-- The `setStepVisuals` updater inside `handleStepVisualGenerated` (identical
in both builds): `newState = { ...prev, [index]: imageUrl }`, then every key of
`prev` strictly greater than `index` is deleted from `newState`. -/
def applyStepVisual (prev : Nat → Option String) (index : Nat) (imageUrl : String) :
    Nat → Option String := fun k =>
  let newState : Nat → Option String := fun j => if j = index then some imageUrl else prev j
  if (prev k).isSome ∧ index < k then none else newState k

/-- Build A `handleStepVisualGenerated`: updates `stepVisuals` via the shared
updater and invalidates `variants` (`setVariants({})`). `videoUrl` is left
untouched by this handler in build A. -/
def handleStepVisualGeneratedA (s : OrchStateA) (index : Nat) (imageUrl : String) : OrchStateA :=
  { s with stepVisuals := applyStepVisual s.stepVisuals index imageUrl, variants := [] }

/-- Build B `handleStepVisualGenerated`: updates `stepVisuals` via the shared
updater and invalidates the outputs that depend on the final state
(`setNightVideoUrl(null)`, `setSummaryAudioBuffer(null)`). -/
def handleStepVisualGeneratedB (s : OrchStateB) (index : Nat) (imageUrl : String) : OrchStateB :=
  { s with stepVisuals := applyStepVisual s.stepVisuals index imageUrl,
           nightVideoUrl := none, summaryAudioBuffer := none }

/-- `isFinalStepVisualized`: false when there is no plan, otherwise whether the
last step of the plan has a stored visual. (On an empty `steps` list the
source expression `plan.steps[plan.steps.length - 1].stepNumber` would throw;
that state is unreachable because plans come from the planning call.) -/
def isFinalStepVisualized (plan : Option DIYPlan) (stepVisuals : Nat → Option String) : Bool :=
  match plan with
  | none => false
  | some p =>
    match p.steps.getLast? with
    | none => false
    | some last => (stepVisuals last.stepNumber).isSome

/-- The action the auto-generation orchestrator `useEffect` decides to start:
nothing, a step-image generation for a given step, or the variant batch. -/
inductive AutoAction where
  | none
  | startStep (step : Step)
  | startVariants
deriving DecidableEq, Repr

/-- Build A auto-generation orchestrator effect (the `useEffect` body): guards
on `appState`/`plan`, the in-flight step index, and the video controller; then
either starts the first step lacking a visual, or, when all steps are
visualized and no variants exist or are loading, starts the variant batch. -/
def autoEffectA (s : OrchStateA) : AutoAction :=
  if s.appState ≠ AppState.RESULT ∨ s.plan.isNone then AutoAction.none
  else if s.generatingStepIndex.isSome then AutoAction.none
  else if s.isVideoLoading ∨ s.videoUrl.isSome then AutoAction.none
  else
    match s.plan with
    | none => AutoAction.none
    | some p =>
      match p.steps.find? (fun step => (s.stepVisuals step.stepNumber).isNone) with
      | some nextStep => AutoAction.startStep nextStep
      | none =>
        if isFinalStepVisualized s.plan s.stepVisuals ∧ s.variants.isEmpty ∧
            s.isVariantsLoading = false
        then AutoAction.startVariants
        else AutoAction.none

/-- Build B auto-generation orchestrator effect: same guards without the video
and variants logic. -/
def autoEffectB (s : OrchStateB) : AutoAction :=
  if s.appState ≠ AppState.RESULT ∨ s.plan.isNone then AutoAction.none
  else if s.generatingStepIndex.isSome then AutoAction.none
  else
    match s.plan with
    | none => AutoAction.none
    | some p =>
      match p.steps.find? (fun step => (s.stepVisuals step.stepNumber).isNone) with
      | some nextStep => AutoAction.startStep nextStep
      | none => AutoAction.none

/-- One evaluation of the build A orchestrator effect together with the
synchronous prefix of the dispatched handler (`generateVisualForStep` begins
with `setGeneratingStepIndex(step.stepNumber)`; `handleGenerateVariants`
begins with `setIsVariantsLoading(true)`). The second component counts the
step-image generation calls dispatched to the gateway by this evaluation. -/
def runTriggerA (s : OrchStateA) : OrchStateA × Nat :=
  match autoEffectA s with
  | AutoAction.startStep step => ({ s with generatingStepIndex := some step.stepNumber }, 1)
  | AutoAction.startVariants => ({ s with isVariantsLoading := true }, 0)
  | AutoAction.none => (s, 0)

/-- Build A `generateVisualForStep` run to completion: sets the in-flight
index, resolves the context image (previous step visual, else the current
room image), calls the gateway, on success applies
`handleStepVisualGenerated`, on failure changes nothing else, and in all
cases finally clears the in-flight index. -/
def generateVisualForStepA (gen : String → Option String → Except GenError String)
    (s : OrchStateA) (step : Step) : OrchStateA :=
  let s0 := { s with generatingStepIndex := some step.stepNumber }
  let contextBase64 : Option String :=
    if step.stepNumber > 1 then
      match s.stepVisuals (step.stepNumber - 1) with
      | some prevStepImage => some prevStepImage
      | none => s.currentImage
    else s.currentImage
  match gen step.visualizationPrompt contextBase64 with
  | Except.ok url =>
      { handleStepVisualGeneratedA s0 step.stepNumber url with generatingStepIndex := none }
  | Except.error _ => { s0 with generatingStepIndex := none }

/-- One of the fixed style configurations of the build A variant batch. -/
structure VariantConfig where
  name : String
  angle : String
  lighting : String
deriving DecidableEq, Repr

/-- The fixed `variantConfigs` list of `handleGenerateVariants`. -/
def variantConfigs : List VariantConfig :=
  [ { name := "Golden Hour Glow", angle := "Match Reference",
      lighting := "Golden Hour, warm sunlight streaming in, cozy atmosphere" },
    { name := "Evening Ambience", angle := "Match Reference",
      lighting := "Night time, interior artificial lights on, cozy and intimate" },
    { name := "Wide Perspective", angle := "Wide Angle",
      lighting := "Bright natural daylight" } ]

/-- Build A `handleGenerateVariants` run to completion. The gateway
`generateVariantImage(finalImage, angle, lighting, style)` is abstracted by
`gen`; its first argument is the possibly-absent final step visual. Each
configuration is tried independently, a failing one becomes `null` and is
dropped, and `setVariants(newVariants)` replaces the whole map once after all
calls resolve. The second component counts dispatched gateway calls. -/
def handleGenerateVariantsA
    (gen : Option String → String → String → String → Except GenError String)
    (s : OrchStateA) : OrchStateA × Nat :=
  match s.plan with
  | none => (s, 0)
  | some p =>
    -- setIsVariantsLoading(true) happens before the last-step lookup; on an
    -- empty steps list the source then throws, leaving the flag set.
    match p.steps.getLast? with
    | none => ({ s with isVariantsLoading := true }, 0)
    | some last =>
      let finalImage := s.stepVisuals last.stepNumber
      let style := p.styleAnalysis
      let results := variantConfigs.map (fun conf =>
        match gen finalImage conf.angle conf.lighting style with
        | Except.ok url => some (conf.name, url)
        | Except.error _ => none)
      let newVariants := results.filterMap id
      ({ s with variants := newVariants, isVariantsLoading := false }, variantConfigs.length)

/-- Build A `handleMaterialClick` run to completion (the build B version is
textually identical). Selects the material, returns early when the cache
already holds an image for `item.name`, otherwise dispatches
`generateProductImage(item.name, style)` — abstracted by `gen` — and caches a
successful result. There is no guard on `generatingMaterialImage`: the flag
is set for the duration of the call but never consulted before dispatching. -/
def handleMaterialClickA (gen : String → String → Except GenError String)
    (s : OrchStateA) (item : Material) : OrchStateA × Nat :=
  let s1 := { s with selectedMaterial := some item }
  if (s1.materialImages item.name).isSome then (s1, 0)
  else
    let style :=
      if item.category = MaterialCategory.tool then "Professional Hardware Equipment"
      else
        -- plan?.styleAnalysis || "Modern Home Decor" (falsy fallback)
        match s1.plan with
        | some p => if p.styleAnalysis = "" then "Modern Home Decor" else p.styleAnalysis
        | none => "Modern Home Decor"
    match gen item.name style with
    | Except.ok url =>
        ({ s1 with materialImages := fun n => if n = item.name then some url
                                              else s1.materialImages n,
                   generatingMaterialImage := false }, 1)
    | Except.error _ => ({ s1 with generatingMaterialImage := false }, 1)

/-- Build A `handleGenerateVideo` run to completion. Refuses when there is no
plan, a video request is in flight, or a video is already cached; also
returns (with an alert) when the last step has no visual. The API-key
pre-flight only logs failures and is not a gateway call. `gen` abstracts
`generateRoomTourVideo(plan.styleAnalysis, bestImage)`. -/
def handleGenerateVideoA (gen : String → String → Except GenError String)
    (s : OrchStateA) : OrchStateA × Nat :=
  if s.plan.isNone ∨ s.isVideoLoading ∨ s.videoUrl.isSome then (s, 0)
  else
    match s.plan with
    | none => (s, 0)
    | some p =>
      match p.steps.getLast? with
      | none => (s, 0)
      | some last =>
        match s.stepVisuals last.stepNumber with
        | none => (s, 0)
        | some bestImage =>
          match gen p.styleAnalysis bestImage with
          | Except.ok url => ({ s with videoUrl := some url, isVideoLoading := false }, 1)
          | Except.error _ => ({ s with isVideoLoading := false }, 1)

/-- Build B `handleGenerateNightTour` run to completion: same guard shape as
the build A video controller, against `nightVideoUrl`/`isNightVideoLoading`.
`gen` abstracts `generateNightTourVideo(bestImage)`. -/
def handleGenerateNightTourB (gen : String → Except GenError String)
    (s : OrchStateB) : OrchStateB × Nat :=
  if s.plan.isNone ∨ s.isNightVideoLoading ∨ s.nightVideoUrl.isSome then (s, 0)
  else
    match s.plan with
    | none => (s, 0)
    | some p =>
      match p.steps.getLast? with
      | none => (s, 0)
      | some last =>
        match s.stepVisuals last.stepNumber with
        | none => (s, 0)
        | some bestImage =>
          match gen bestImage with
          | Except.ok url => ({ s with nightVideoUrl := some url, isNightVideoLoading := false }, 1)
          | Except.error _ => ({ s with isNightVideoLoading := false }, 1)

/-- Build B `handleGenerateSummary` run to completion. The only guard is
`if (!plan) return`: neither `isSummaryLoading` nor a cached
`summaryAudioBuffer` is consulted before dispatching
`generateProjectSummaryAudio(plan)` (abstracted by `gen`; the resulting
`ArrayBuffer` is modelled as an opaque string). -/
def handleGenerateSummaryB (gen : DIYPlan → Except GenError String)
    (s : OrchStateB) : OrchStateB × Nat :=
  match s.plan with
  | none => (s, 0)
  | some p =>
    match gen p with
    | Except.ok buffer =>
        ({ s with summaryAudioBuffer := some buffer, showSummaryPlayer := true,
                  isSummaryLoading := false }, 1)
    | Except.error _ => ({ s with isSummaryLoading := false }, 1)

/-- The composite completion key, the template literal
written in the source as a dollar-brace interpolation of
stepIndex, a hyphen, and subIndex. -/
def subKey (stepIndex subIndex : Nat) : String :=
  Nat.repr stepIndex ++ "-" ++ Nat.repr subIndex

/-- How the checkbox UI reads a completion entry:
double-negation of the possibly-absent map entry. -/
def substepChecked (completed : String → Option Bool) (stepIndex subIndex : Nat) : Bool :=
  (completed (subKey stepIndex subIndex)).getD false

/-- `deleteSubstep` (identical in both builds): removes the substep at
`subIdx` of step `sIdx` (JavaScript `splice(subIdx, 1)`) and calls `setPlan`.
The completion map is not touched. On an out-of-range `sIdx` the source would
throw on the member access. -/
def deleteSubstep (plan : DIYPlan) (completed : String → Option Bool)
    (sIdx subIdx : Nat) : DIYPlan × (String → Option Bool) :=
  match plan.steps[sIdx]? with
  | none => (plan, completed)
  | some step =>
      ({ plan with steps :=
          plan.steps.set sIdx { step with substeps := step.substeps.eraseIdx subIdx } },
       completed)

/-- `moveSubstep` (identical in both builds): bounds-check the target index,
swap the two adjacent substeps, and swap the corresponding completion
entries (`next[currentKey] = val2; next[newKey] = val1`, later assignment
winning). `direction` is `-1 | 1` in the source. -/
def moveSubstep (plan : DIYPlan) (completed : String → Option Bool)
    (sIdx subIdx : Nat) (direction : Int) : DIYPlan × (String → Option Bool) :=
  match plan.steps[sIdx]? with
  | none => (plan, completed)
  | some step =>
    let substeps := step.substeps
    let newIndex : Int := (subIdx : Int) + direction
    if newIndex < 0 ∨ (substeps.length : Int) ≤ newIndex then (plan, completed)
    else
      let nIdx := newIndex.toNat
      let temp := substeps.getD subIdx ""
      let substeps' := (substeps.set subIdx (substeps.getD nIdx "")).set nIdx temp
      let plan' := { plan with steps := plan.steps.set sIdx { step with substeps := substeps' } }
      let currentKey := subKey sIdx subIdx
      let newKey := subKey sIdx nIdx
      let val1 := completed currentKey
      let val2 := completed newKey
      let completed' := fun k =>
        if k = newKey then val1 else if k = currentKey then val2 else completed k
      (plan', completed')

/-- `SummaryPlayer` animation frame: while the elapsed audio time is below the
decoded duration, the displayed image index is
`Math.min(Math.floor(progress * images.length), images.length - 1)` with
`progress = elapsed / duration`; at or past the end it is pinned to
`images.length - 1` and no further frame is scheduled. Real-number audio
timestamps are modelled exactly over the rationals. -/
def displayedIndex (elapsed duration : ℚ) (imageCount : Nat) : Int :=
  if elapsed < duration then
    min ⌊elapsed / duration * imageCount⌋ ((imageCount : Int) - 1)
  else (imageCount : Int) - 1

/-- A concrete first plan step (substeps "A", "B", "C") used as test input. -/
def sampleStep1 : Step :=
  { stepNumber := 1, title := "Prep", instruction := "Prepare the room",
    substeps := ["A", "B", "C"], safetyWarning := none, requiredTools := none,
    tip := none, visualizationPrompt := "prompt one", difficulty := Difficulty.Easy,
    estimatedTime := "1h" }

/-- A concrete second plan step used as test input. -/
def sampleStep2 : Step :=
  { stepNumber := 2, title := "Paint", instruction := "Paint the walls",
    substeps := ["D"], safetyWarning := none, requiredTools := none,
    tip := none, visualizationPrompt := "prompt two", difficulty := Difficulty.Medium,
    estimatedTime := "2h" }

/-- A concrete third plan step used as test input. -/
def sampleStep3 : Step :=
  { stepNumber := 3, title := "Decorate", instruction := "Place the decor",
    substeps := ["E"], safetyWarning := none, requiredTools := none,
    tip := none, visualizationPrompt := "prompt three", difficulty := Difficulty.Easy,
    estimatedTime := "1h" }

/-- A concrete material used as test input. -/
def sampleMaterial : Material :=
  { name := "Paint", quantity := "1 can", estimatedCost := "$20",
    category := MaterialCategory.decor }

/-- A concrete three-step plan used as test input. -/
def samplePlan : DIYPlan :=
  { projectTitle := "Makeover", description := "demo", styleAnalysis := "Modern",
    difficultyLevel := DifficultyLevel.Beginner, estimatedTime := "3h",
    estimatedTotalCost := "$100", materials := [sampleMaterial],
    steps := [sampleStep1, sampleStep2, sampleStep3] }

/-- A concrete build A state on the result screen with no generated artifacts. -/
def sampleStateA : OrchStateA :=
  { appState := AppState.RESULT, currentImage := some "orig",
    plan := some samplePlan, stepVisuals := fun _ => none,
    generatingStepIndex := none, completedSubsteps := fun _ => none,
    selectedMaterial := none, materialImages := fun _ => none,
    generatingMaterialImage := false, videoUrl := none, isVideoLoading := false,
    variants := [], isVariantsLoading := false }

/-- A concrete build B state on the result screen with no generated artifacts. -/
def sampleStateB : OrchStateB :=
  { appState := AppState.RESULT, currentImage := some "orig",
    plan := some samplePlan, stepVisuals := fun _ => none,
    generatingStepIndex := none, completedSubsteps := fun _ => none,
    selectedMaterial := none, materialImages := fun _ => none,
    generatingMaterialImage := false, summaryAudioBuffer := none,
    isSummaryLoading := false, showSummaryPlayer := false,
    nightVideoUrl := none, isNightVideoLoading := false }

/-- The build A state reached after step 1 succeeded and the automatic attempt
for step 2 failed: only step 1 has a visual and nothing is in flight. -/
def c3StateA : OrchStateA :=
  { sampleStateA with stepVisuals := fun k => if k = 1 then some "img1" else none }

/-- A concrete visuals map holding entries at keys 0, 1, 2, 3. -/
def samplePrevVisuals : Nat → Option String :=
  fun j => if j ≤ 3 then some "old" else none

/-- A concrete variant gateway that throws exactly for the Evening Ambience
lighting configuration and succeeds for the other two. -/
def sampleVariantGen : Option String → String → String → String → Except GenError String :=
  fun _ _ lighting _ =>
    if lighting = "Night time, interior artificial lights on, cozy and intimate" then
      Except.error "GenerationError"
    else Except.ok "variantImg"

/-- A concrete completion map for step index 0: index 0 unchecked, index 1
checked, index 2 unchecked. -/
def sampleCompleted : String → Option Bool :=
  fun k => if k = "0-0" then some false
           else if k = "0-1" then some true
           else if k = "0-2" then some false
           else none

/-- A concrete completion map for step index 0 where index 0 is checked and
index 1 is unchecked. -/
def sampleCompleted8 : String → Option Bool :=
  fun k => if k = "0-0" then some true
           else if k = "0-1" then some false
           else none

/-!
Helper development: decimal `Nat.repr` is injective, so distinct substep
indices produce distinct completion keys in `subKey`.
-/

theorem toDigitsCore_accAppend (fuel : Nat) : ∀ (n : Nat) (prev : List Char),
    Nat.toDigitsCore 10 fuel n prev = Nat.toDigitsCore 10 fuel n [] ++ prev := by
  induction fuel with
  | zero => intro n prev; simp [Nat.toDigitsCore]
  | succ fuel ih =>
    intro n prev
    simp only [Nat.toDigitsCore]
    by_cases h : n / 10 = 0
    · simp [h]
    · simp only [h, if_false]
      rw [ih (n / 10) ((n % 10).digitChar :: prev), ih (n / 10) [(n % 10).digitChar]]
      simp

theorem toDigitsCore_fuelIrrel (n : Nat) : ∀ f1 f2, n < f1 → n < f2 →
    Nat.toDigitsCore 10 f1 n [] = Nat.toDigitsCore 10 f2 n [] := by
  induction n using Nat.strong_induction_on with
  | _ n ih =>
    intro f1 f2 h1 h2
    match f1, f2 with
    | g1 + 1, g2 + 1 =>
      simp only [Nat.toDigitsCore]
      by_cases h : n / 10 = 0
      · simp [h]
      · simp only [h, if_false]
        have hd : n / 10 < n := by omega
        rw [toDigitsCore_accAppend g1, toDigitsCore_accAppend g2,
            ih (n / 10) hd g1 g2 (by omega) (by omega)]

theorem toDigits_ge10 (n : Nat) (h : 10 ≤ n) :
    Nat.toDigits 10 n = Nat.toDigits 10 (n / 10) ++ [(n % 10).digitChar] := by
  have h0 : ¬ n / 10 = 0 := by omega
  show Nat.toDigitsCore 10 (n + 1) n [] = _
  simp only [Nat.toDigitsCore, h0, if_false]
  rw [toDigitsCore_accAppend]
  rw [toDigitsCore_fuelIrrel (n / 10) n (n / 10 + 1) (by omega) (by omega)]
  rfl

theorem toDigits_lt10 (n : Nat) (h : n < 10) :
    Nat.toDigits 10 n = [n.digitChar] := by
  have h0 : n / 10 = 0 := by omega
  have h1 : n % 10 = n := by omega
  show Nat.toDigitsCore 10 (n + 1) n [] = _
  simp [Nat.toDigitsCore, h0, h1]

theorem toDigits_length_pos (n : Nat) : 0 < (Nat.toDigits 10 n).length := by
  rcases Nat.lt_or_ge n 10 with h | h
  · simp [toDigits_lt10 n h]
  · rw [toDigits_ge10 n h]; simp

theorem digitChar_injOn : ∀ a < 10, ∀ b < 10, Nat.digitChar a = Nat.digitChar b → a = b := by
  decide

theorem toDigits_injective : ∀ n m : Nat, Nat.toDigits 10 n = Nat.toDigits 10 m → n = m := by
  intro n
  induction n using Nat.strong_induction_on with
  | _ n ih =>
    intro m h
    rcases Nat.lt_or_ge n 10 with hn | hn <;> rcases Nat.lt_or_ge m 10 with hm | hm
    · rw [toDigits_lt10 n hn, toDigits_lt10 m hm] at h
      simp only [List.cons.injEq] at h
      exact digitChar_injOn n hn m hm h.1
    · rw [toDigits_lt10 n hn, toDigits_ge10 m hm] at h
      have hlen := congrArg List.length h
      have := toDigits_length_pos (m / 10)
      simp only [List.length_append, List.length_cons, List.length_nil] at hlen
      omega
    · rw [toDigits_ge10 n hn, toDigits_lt10 m hm] at h
      have hlen := congrArg List.length h
      have := toDigits_length_pos (n / 10)
      simp only [List.length_append, List.length_cons, List.length_nil] at hlen
      omega
    · rw [toDigits_ge10 n hn, toDigits_ge10 m hm] at h
      obtain ⟨hq, hr⟩ := List.append_inj' h rfl
      have hdiv : n / 10 = m / 10 := ih (n / 10) (by omega) (m / 10) hq
      have hmod : n % 10 = m % 10 := by
        apply digitChar_injOn _ (by omega) _ (by omega)
        simpa using hr
      omega

theorem natRepr_injective : ∀ n m : Nat, Nat.repr n = Nat.repr m → n = m := by
  intro n m h
  apply toDigits_injective
  have hd := congrArg String.data h
  simpa [Nat.repr, List.asString] using hd

theorem subKey_right_inj (s a b : Nat) (h : subKey s a = subKey s b) : a = b := by
  have hd := congrArg String.data h
  simp only [subKey, String.data_append, List.append_assoc] at hd
  have h1 := List.append_cancel_left hd
  have h2 := List.append_cancel_left h1
  exact toDigits_injective a b h2

theorem autoEffectA_inFlight (s : OrchStateA) (h : s.generatingStepIndex.isSome = true) :
    autoEffectA s = AutoAction.none := by
  by_cases h1 : (s.appState ≠ AppState.RESULT ∨ s.plan.isNone = true)
  · rcases h1 with h1 | h1 <;> simp [autoEffectA, h1]
  · simp [autoEffectA, h1, h]

theorem autoEffectB_inFlight (s : OrchStateB) (h : s.generatingStepIndex.isSome = true) :
    autoEffectB s = AutoAction.none := by
  by_cases h1 : (s.appState ≠ AppState.RESULT ∨ s.plan.isNone = true)
  · rcases h1 with h1 | h1 <;> simp [autoEffectB, h1]
  · simp [autoEffectB, h1, h]

/-- C1: storing a (re)generated visual for step k via `handleStepVisualGenerated`
(the shared `setStepVisuals` updater `applyStepVisual`, used by both builds
and by both the automatic and the manual `onGenerate` path) yields a map that
holds the new image at key k, holds nothing at any key above k (previously
stored later visuals are deleted), and is unchanged below k. -/
theorem stepVisual_downstream_invalidation
    (prev : Nat → Option String) (k : Nat) (url : String)
    (sa : OrchStateA) (sb : OrchStateB) :
    (handleStepVisualGeneratedA sa k url).stepVisuals = applyStepVisual sa.stepVisuals k url
    ∧ (handleStepVisualGeneratedB sb k url).stepVisuals = applyStepVisual sb.stepVisuals k url
    ∧ applyStepVisual prev k url k = some url
    ∧ (∀ m, k < m → applyStepVisual prev k url m = none)
    ∧ (∀ m, m < k → applyStepVisual prev k url m = prev m) := by
  refine ⟨rfl, rfl, ?_, ?_, ?_⟩
  · simp [applyStepVisual]
  · intro m hm
    simp only [applyStepVisual]
    by_cases hp : (prev m).isSome
    · simp [hp, hm]
    · have hne : ¬ m = k := by omega
      simp only [hp, false_and, if_false, hne]
      simpa using hp
  · intro m hm
    have h1 : ¬ k < m := by omega
    have h2 : ¬ m = k := by omega
    simp [applyStepVisual, h1, h2]

/-- C1 witness: at the concrete map holding keys 0..3, writing key 1 stores
the new image, deletes key 2, and leaves key 0 unchanged. -/
theorem stepVisual_downstream_invalidation_witness :
    (1 < 2 ∧ applyStepVisual samplePrevVisuals 1 "new" 2 = none)
    ∧ (0 < 1 ∧ applyStepVisual samplePrevVisuals 1 "new" 0 = some "old") := by
  refine ⟨⟨by decide, ?_⟩, ⟨by decide, ?_⟩⟩
  · exact (stepVisual_downstream_invalidation samplePrevVisuals 1 "new"
      sampleStateA sampleStateB).2.2.2.1 2 (by decide)
  · exact ((stepVisual_downstream_invalidation samplePrevVisuals 1 "new"
      sampleStateA sampleStateB).2.2.2.2 0 (by decide)).trans (by decide)

/-- C2: with a step generation outstanding (`generatingStepIndex` non-null),
an evaluation of the auto-generation orchestrator effect of either build
issues no gateway call; consequently, when an evaluation does dispatch a
step-image generation, that trigger issues exactly one step-image call and a
second trigger arriving while it is in flight issues zero. -/
theorem orchestrator_single_flight (sa : OrchStateA) (sb : OrchStateB) (st : Step) :
    (sa.generatingStepIndex ≠ none → autoEffectA sa = AutoAction.none)
    ∧ (sb.generatingStepIndex ≠ none → autoEffectB sb = AutoAction.none)
    ∧ (autoEffectA sa = AutoAction.startStep st →
        (runTriggerA sa).2 = 1 ∧ (runTriggerA (runTriggerA sa).1).2 = 0) := by
  refine ⟨?_, ?_, ?_⟩
  · intro h
    exact autoEffectA_inFlight sa (Option.isSome_iff_ne_none.mpr h)
  · intro h
    exact autoEffectB_inFlight sb (Option.isSome_iff_ne_none.mpr h)
  · intro h
    have e1 : runTriggerA sa = ({ sa with generatingStepIndex := some st.stepNumber }, 1) := by
      simp [runTriggerA, h]
    refine ⟨by rw [e1], ?_⟩
    rw [e1]
    have h2 : autoEffectA { sa with generatingStepIndex := some st.stepNumber } =
        AutoAction.none := autoEffectA_inFlight _ rfl
    simp [runTriggerA, h2]

/-- C2 witness: with step 1 marked in flight the effect is a no-op in both
builds, and from the fresh result state the first trigger dispatches exactly
one step-image call while the second trigger dispatches none. -/
theorem orchestrator_single_flight_witness :
    ({ sampleStateA with generatingStepIndex := some 1 }.generatingStepIndex ≠ none
      ∧ autoEffectA { sampleStateA with generatingStepIndex := some 1 } = AutoAction.none)
    ∧ ({ sampleStateB with generatingStepIndex := some 1 }.generatingStepIndex ≠ none
      ∧ autoEffectB { sampleStateB with generatingStepIndex := some 1 } = AutoAction.none)
    ∧ ((runTriggerA sampleStateA).2 = 1 ∧ (runTriggerA (runTriggerA sampleStateA).1).2 = 0) := by
  refine ⟨⟨by decide, ?_⟩, ⟨by decide, ?_⟩, ?_⟩
  · exact (orchestrator_single_flight { sampleStateA with generatingStepIndex := some 1 }
      sampleStateB sampleStep1).1 (by decide)
  · exact (orchestrator_single_flight sampleStateA
      { sampleStateB with generatingStepIndex := some 1 } sampleStep1).2.1 (by decide)
  · exact (orchestrator_single_flight sampleStateA sampleStateB sampleStep1).2.2 (by decide)

/-- C3 (divergence witness): in the state reached after step 1 succeeded and
the automatic attempt for step 2 failed (visual stored only for key 1,
in-flight flag cleared by the `finally` block), re-evaluating the build A
orchestrator effect — which React re-runs because `generatingStepIndex`
changed back to null — immediately dispatches a new automatic attempt for
step 2 instead of pausing; no attempt is made for step 3. -/
theorem failed_step_is_auto_retried :
    (generateVisualForStepA (fun _ _ => Except.error "GenerationError") c3StateA
        sampleStep2).stepVisuals 1 = some "img1"
    ∧ (generateVisualForStepA (fun _ _ => Except.error "GenerationError") c3StateA
        sampleStep2).stepVisuals 2 = none
    ∧ (generateVisualForStepA (fun _ _ => Except.error "GenerationError") c3StateA
        sampleStep2).stepVisuals 3 = none
    ∧ (generateVisualForStepA (fun _ _ => Except.error "GenerationError") c3StateA
        sampleStep2).generatingStepIndex = none
    ∧ autoEffectA (generateVisualForStepA (fun _ _ => Except.error "GenerationError")
        c3StateA sampleStep2) = AutoAction.startStep sampleStep2 := by
  decide

/-- C4: whenever a `stepVisuals` entry is (re)written through
`handleStepVisualGenerated`, build A clears the variants map and build B
clears the night-tour video URL and the summary audio buffer, regardless of
which key changed. -/
theorem derived_artifacts_cleared (sa : OrchStateA) (sb : OrchStateB) (k : Nat) (url : String) :
    (handleStepVisualGeneratedA sa k url).variants = []
    ∧ (handleStepVisualGeneratedB sb k url).nightVideoUrl = none
    ∧ (handleStepVisualGeneratedB sb k url).summaryAudioBuffer = none :=
  ⟨rfl, rfl, rfl⟩

/-- C10: in build A, whenever a tour video is in flight or cached, the
auto-generation orchestrator effect performs no action at all, whatever the
plan and visuals state. -/
theorem video_gates_auto_sequencing (s : OrchStateA)
    (h : s.isVideoLoading = true ∨ s.videoUrl.isSome = true) :
    autoEffectA s = AutoAction.none := by
  by_cases h1 : (s.appState ≠ AppState.RESULT ∨ s.plan.isNone = true)
  · rcases h1 with h1 | h1 <;> simp [autoEffectA, h1]
  · by_cases h2 : s.generatingStepIndex.isSome = true
    · simp [autoEffectA, h1, h2]
    · rcases h with h | h <;> simp [autoEffectA, h1, h2, h]

/-- C10 witness: with a cached video and all else ready to generate, the
effect does nothing. -/
theorem video_gates_auto_sequencing_witness :
    ({ sampleStateA with videoUrl := some "vid" }.isVideoLoading = true
      ∨ { sampleStateA with videoUrl := some "vid" }.videoUrl.isSome = true)
    ∧ autoEffectA { sampleStateA with videoUrl := some "vid" } = AutoAction.none :=
  ⟨Or.inr rfl, video_gates_auto_sequencing _ (Or.inr rfl)⟩


/-- C5: in the variant batch, each configuration fails in isolation: an entry
named after a configuration is in the resulting variants map exactly when
that configuration's gateway call succeeded (with the image it returned),
every entry is named after one of the three configurations, the number of
entries equals the number of successful calls, and the result replaces any
prior variants map wholesale (it does not depend on the previous map). -/
theorem variant_batch_failure_isolation
    (gen : Option String → String → String → String → Except GenError String)
    (s : OrchStateA) (p : DIYPlan) (last : Step)
    (hp : s.plan = some p) (hl : p.steps.getLast? = some last) :
    (∀ u, ("Golden Hour Glow", u) ∈ ((handleGenerateVariantsA gen s).1).variants ↔
        gen (s.stepVisuals last.stepNumber) "Match Reference"
          "Golden Hour, warm sunlight streaming in, cozy atmosphere" p.styleAnalysis
          = Except.ok u)
    ∧ (∀ u, ("Evening Ambience", u) ∈ ((handleGenerateVariantsA gen s).1).variants ↔
        gen (s.stepVisuals last.stepNumber) "Match Reference"
          "Night time, interior artificial lights on, cozy and intimate" p.styleAnalysis
          = Except.ok u)
    ∧ (∀ u, ("Wide Perspective", u) ∈ ((handleGenerateVariantsA gen s).1).variants ↔
        gen (s.stepVisuals last.stepNumber) "Wide Angle" "Bright natural daylight"
          p.styleAnalysis = Except.ok u)
    ∧ (∀ name u, (name, u) ∈ ((handleGenerateVariantsA gen s).1).variants →
        name ∈ ["Golden Hour Glow", "Evening Ambience", "Wide Perspective"])
    ∧ ((handleGenerateVariantsA gen s).1).variants.length =
        variantConfigs.countP (fun conf =>
          (gen (s.stepVisuals last.stepNumber) conf.angle conf.lighting
            p.styleAnalysis).toOption.isSome)
    ∧ (∀ v, ((handleGenerateVariantsA gen { s with variants := v }).1).variants =
        ((handleGenerateVariantsA gen s).1).variants) := by
  have hres : ∀ s' : OrchStateA, s'.plan = some p → s'.stepVisuals = s.stepVisuals →
      ((handleGenerateVariantsA gen s').1).variants =
      (variantConfigs.map (fun conf =>
        match gen (s.stepVisuals last.stepNumber) conf.angle conf.lighting p.styleAnalysis with
        | Except.ok url => some (conf.name, url)
        | Except.error _ => none)).filterMap id := by
    intro s' hp' hv
    simp [handleGenerateVariantsA, hp', hl, hv]
  have hmain := hres s hp rfl
  refine ⟨?_, ?_, ?_, ?_, ?_, ?_⟩
  · intro u
    rw [hmain]
    simp only [variantConfigs, List.map_cons, List.map_nil]
    rcases h1 : gen (s.stepVisuals last.stepNumber) "Match Reference"
        "Golden Hour, warm sunlight streaming in, cozy atmosphere" p.styleAnalysis with e1 | u1 <;>
      rcases h2 : gen (s.stepVisuals last.stepNumber) "Match Reference"
        "Night time, interior artificial lights on, cozy and intimate" p.styleAnalysis with e2 | u2 <;>
      rcases h3 : gen (s.stepVisuals last.stepNumber) "Wide Angle" "Bright natural daylight"
        p.styleAnalysis with e3 | u3 <;>
      simp [List.filterMap, eq_comm]
  · intro u
    rw [hmain]
    simp only [variantConfigs, List.map_cons, List.map_nil]
    rcases h1 : gen (s.stepVisuals last.stepNumber) "Match Reference"
        "Golden Hour, warm sunlight streaming in, cozy atmosphere" p.styleAnalysis with e1 | u1 <;>
      rcases h2 : gen (s.stepVisuals last.stepNumber) "Match Reference"
        "Night time, interior artificial lights on, cozy and intimate" p.styleAnalysis with e2 | u2 <;>
      rcases h3 : gen (s.stepVisuals last.stepNumber) "Wide Angle" "Bright natural daylight"
        p.styleAnalysis with e3 | u3 <;>
      simp [List.filterMap, eq_comm]
  · intro u
    rw [hmain]
    simp only [variantConfigs, List.map_cons, List.map_nil]
    rcases h1 : gen (s.stepVisuals last.stepNumber) "Match Reference"
        "Golden Hour, warm sunlight streaming in, cozy atmosphere" p.styleAnalysis with e1 | u1 <;>
      rcases h2 : gen (s.stepVisuals last.stepNumber) "Match Reference"
        "Night time, interior artificial lights on, cozy and intimate" p.styleAnalysis with e2 | u2 <;>
      rcases h3 : gen (s.stepVisuals last.stepNumber) "Wide Angle" "Bright natural daylight"
        p.styleAnalysis with e3 | u3 <;>
      simp [List.filterMap, eq_comm]
  · intro name u hmem
    rw [hmain] at hmem
    simp only [variantConfigs, List.map_cons, List.map_nil] at hmem
    rcases h1 : gen (s.stepVisuals last.stepNumber) "Match Reference"
        "Golden Hour, warm sunlight streaming in, cozy atmosphere" p.styleAnalysis with e1 | u1 <;>
      rcases h2 : gen (s.stepVisuals last.stepNumber) "Match Reference"
        "Night time, interior artificial lights on, cozy and intimate" p.styleAnalysis with e2 | u2 <;>
      rcases h3 : gen (s.stepVisuals last.stepNumber) "Wide Angle" "Bright natural daylight"
        p.styleAnalysis with e3 | u3 <;>
      simp [h1, h2, h3, List.filterMap] at hmem <;>
      rcases hmem with h | h | h <;> simp_all
  · rw [hmain]
    simp only [variantConfigs, List.map_cons, List.map_nil]
    rcases h1 : gen (s.stepVisuals last.stepNumber) "Match Reference"
        "Golden Hour, warm sunlight streaming in, cozy atmosphere" p.styleAnalysis with e1 | u1 <;>
      rcases h2 : gen (s.stepVisuals last.stepNumber) "Match Reference"
        "Night time, interior artificial lights on, cozy and intimate" p.styleAnalysis with e2 | u2 <;>
      rcases h3 : gen (s.stepVisuals last.stepNumber) "Wide Angle" "Bright natural daylight"
        p.styleAnalysis with e3 | u3 <;>
      simp [List.filterMap, List.countP, List.countP.go, Except.toOption, h1, h2, h3]
  · intro v
    rw [hres { s with variants := v } (by simpa using hp) rfl, hmain]

/-- C5 witness: with all three steps visualized and a gateway that throws for
the Evening Ambience configuration only, the resulting variants map has
exactly the two entries of the succeeding configurations. -/
theorem variant_batch_failure_isolation_witness :
    { sampleStateA with stepVisuals := samplePrevVisuals }.plan = some samplePlan
    ∧ samplePlan.steps.getLast? = some sampleStep3
    ∧ ((handleGenerateVariantsA sampleVariantGen
        { sampleStateA with stepVisuals := samplePrevVisuals }).1).variants.length = 2
    ∧ ((handleGenerateVariantsA sampleVariantGen
        { sampleStateA with stepVisuals := samplePrevVisuals }).1).variants =
      [("Golden Hour Glow", "variantImg"), ("Wide Perspective", "variantImg")] := by
  refine ⟨rfl, rfl, ?_, by decide⟩
  exact ((variant_batch_failure_isolation sampleVariantGen
    { sampleStateA with stepVisuals := samplePrevVisuals } samplePlan sampleStep3
    rfl rfl).2.2.2.2.1).trans (by decide)

/-- C6 counterexample: two on-demand controllers accept duplicate requests.
With a material request outstanding (`generatingMaterialImage` is true) and no
cached image for the clicked name, `handleMaterialClick` still dispatches a
gateway call; and with a summary audio buffer already cached,
`handleGenerateSummary` still dispatches a new gateway call. -/
theorem on_demand_duplicate_request_cex :
    ({ sampleStateA with generatingMaterialImage := true }.generatingMaterialImage = true
      ∧ { sampleStateA with
            generatingMaterialImage := true }.materialImages sampleMaterial.name = none
      ∧ (handleMaterialClickA (fun _ _ => Except.ok "img")
          { sampleStateA with generatingMaterialImage := true } sampleMaterial).2 = 1)
    ∧ ({ sampleStateB with summaryAudioBuffer := some "cachedAudio" }.summaryAudioBuffer
          = some "cachedAudio"
      ∧ (handleGenerateSummaryB (fun _ => Except.ok "audio")
          { sampleStateB with summaryAudioBuffer := some "cachedAudio" }).2 = 1) := by
  decide

/-- C6 amended: the guards the on-demand controllers actually implement. The
material controller refuses (zero gateway calls) exactly when an image for
the clicked name is cached — in particular a cached key yields zero calls —
but not while another request is outstanding; the video and night-tour
controllers refuse while a request is in flight or a result is cached; the
summary controller refuses only when no plan exists, and with a plan present
it always dispatches one call, cached buffer or not. -/
theorem on_demand_controller_guards
    (gen : String → String → Except GenError String) (s : OrchStateA) (item : Material)
    (genV : String → String → Except GenError String) (sV : OrchStateA)
    (genN : String → Except GenError String) (sN : OrchStateB)
    (genS : DIYPlan → Except GenError String) (sS : OrchStateB) :
    ((s.materialImages item.name).isSome = true → (handleMaterialClickA gen s item).2 = 0)
    ∧ ((sV.isVideoLoading = true ∨ sV.videoUrl.isSome = true) →
        (handleGenerateVideoA genV sV).2 = 0)
    ∧ ((sN.isNightVideoLoading = true ∨ sN.nightVideoUrl.isSome = true) →
        (handleGenerateNightTourB genN sN).2 = 0)
    ∧ (sS.plan = none → (handleGenerateSummaryB genS sS).2 = 0)
    ∧ (∀ p, sS.plan = some p → (handleGenerateSummaryB genS sS).2 = 1) := by
  refine ⟨?_, ?_, ?_, ?_, ?_⟩
  · intro h
    simp [handleMaterialClickA, h]
  · intro h
    rcases h with h | h <;> simp [handleGenerateVideoA, h]
  · intro h
    rcases h with h | h <;> simp [handleGenerateNightTourB, h]
  · intro h
    simp [handleGenerateSummaryB, h]
  · intro p hp
    simp only [handleGenerateSummaryB, hp]
    cases genS p <;> rfl

/-- C6 witness: a cached material name yields zero gateway calls; a cached
video, an in-flight night tour, and a missing plan are each refused. -/
theorem on_demand_controller_guards_witness :
    (({ sampleStateA with
          materialImages := fun n => if n = "Paint" then some "cached" else none
        }.materialImages sampleMaterial.name).isSome = true
      ∧ (handleMaterialClickA (fun _ _ => Except.ok "img")
          { sampleStateA with
            materialImages := fun n => if n = "Paint" then some "cached" else none }
          sampleMaterial).2 = 0)
    ∧ (handleGenerateVideoA (fun _ _ => Except.ok "vid")
        { sampleStateA with videoUrl := some "vid" }).2 = 0
    ∧ (handleGenerateNightTourB (fun _ => Except.ok "vid")
        { sampleStateB with isNightVideoLoading := true }).2 = 0
    ∧ (handleGenerateSummaryB (fun _ => Except.ok "audio")
        { sampleStateB with plan := none }).2 = 0 := by
  refine ⟨⟨by decide, ?_⟩, ?_, ?_, ?_⟩
  · exact (on_demand_controller_guards (fun _ _ => Except.ok "img")
      { sampleStateA with
        materialImages := fun n => if n = "Paint" then some "cached" else none }
      sampleMaterial (fun _ _ => Except.ok "vid") sampleStateA
      (fun _ => Except.ok "vid") sampleStateB
      (fun _ => Except.ok "audio") sampleStateB).1 (by decide)
  · exact (on_demand_controller_guards (fun _ _ => Except.ok "img") sampleStateA
      sampleMaterial (fun _ _ => Except.ok "vid")
      { sampleStateA with videoUrl := some "vid" }
      (fun _ => Except.ok "vid") sampleStateB
      (fun _ => Except.ok "audio") sampleStateB).2.1 (Or.inr rfl)
  · exact (on_demand_controller_guards (fun _ _ => Except.ok "img") sampleStateA
      sampleMaterial (fun _ _ => Except.ok "vid") sampleStateA
      (fun _ => Except.ok "vid")
      { sampleStateB with isNightVideoLoading := true }
      (fun _ => Except.ok "audio") sampleStateB).2.2.1 (Or.inl rfl)
  · exact (on_demand_controller_guards (fun _ _ => Except.ok "img") sampleStateA
      sampleMaterial (fun _ _ => Except.ok "vid") sampleStateA
      (fun _ => Except.ok "vid") sampleStateB
      (fun _ => Except.ok "audio")
      { sampleStateB with plan := none }).2.2.2.1 rfl

theorem moveSubstep_down_unfold (plan : DIYPlan) (completed : String → Option Bool)
    (sIdx j : Nat) (step : Step) (hs : plan.steps[sIdx]? = some step)
    (hj : j + 1 < step.substeps.length) :
    moveSubstep plan completed sIdx j 1 =
      ({ plan with steps := plan.steps.set sIdx { step with substeps := (step.substeps.set j (step.substeps.getD (j + 1) "")).set (j + 1) (step.substeps.getD j "") } },
       fun k => if k = subKey sIdx (j + 1) then completed (subKey sIdx j)
                else if k = subKey sIdx j then completed (subKey sIdx (j + 1))
                else completed k) := by
  have ht : ((j : Int) + 1).toNat = j + 1 := by omega
  simp only [moveSubstep, hs]
  rw [if_neg (by omega)]
  simp [ht]

theorem moveSubstep_up_unfold (plan : DIYPlan) (completed : String → Option Bool)
    (sIdx j : Nat) (step : Step) (hs : plan.steps[sIdx]? = some step)
    (hj : j + 1 < step.substeps.length) :
    moveSubstep plan completed sIdx (j + 1) (-1) =
      ({ plan with steps := plan.steps.set sIdx { step with substeps := (step.substeps.set (j + 1) (step.substeps.getD j "")).set j (step.substeps.getD (j + 1) "") } },
       fun k => if k = subKey sIdx j then completed (subKey sIdx (j + 1))
                else if k = subKey sIdx (j + 1) then completed (subKey sIdx j)
                else completed k) := by
  have ht : (((j + 1 : Nat) : Int) + (-1)).toNat = j := by omega
  simp only [moveSubstep, hs]
  rw [if_neg (by omega)]
  simp [ht]

/-- C7: for adjacent substep indices j and j+1 of an existing step, moving the
substep at j down (direction +1) swaps the two substep texts and swaps the
two corresponding completion entries, leaving every other completion key
untouched; moving the substep at j+1 up (direction -1) produces the exact
same result; and when the target index falls outside the list the operation
is a no-op on both the plan and the completion map. -/
theorem move_substep_swaps_content_and_completion
    (plan : DIYPlan) (completed : String → Option Bool) (sIdx j : Nat) (step : Step)
    (hs : plan.steps[sIdx]? = some step) :
    (j + 1 < step.substeps.length →
      (∀ i, ((moveSubstep plan completed sIdx j 1).1.steps[sIdx]?.bind
            (fun st => st.substeps[i]?)) =
          if i = j then step.substeps[j + 1]?
          else if i = j + 1 then step.substeps[j]?
          else step.substeps[i]?)
      ∧ (moveSubstep plan completed sIdx j 1).2 (subKey sIdx j)
          = completed (subKey sIdx (j + 1))
      ∧ (moveSubstep plan completed sIdx j 1).2 (subKey sIdx (j + 1))
          = completed (subKey sIdx j)
      ∧ (∀ k, k ≠ subKey sIdx j → k ≠ subKey sIdx (j + 1) →
          (moveSubstep plan completed sIdx j 1).2 k = completed k)
      ∧ moveSubstep plan completed sIdx (j + 1) (-1) = moveSubstep plan completed sIdx j 1)
    ∧ (step.substeps.length ≤ j + 1 → moveSubstep plan completed sIdx j 1 = (plan, completed))
    ∧ moveSubstep plan completed sIdx 0 (-1) = (plan, completed) := by
  have hslen : sIdx < plan.steps.length := (List.getElem?_eq_some.mp hs).1
  refine ⟨?_, ?_, ?_⟩
  · intro hj
    have hj0 : j < step.substeps.length := by omega
    have hkey : subKey sIdx j ≠ subKey sIdx (j + 1) := by
      intro he
      have := subKey_right_inj sIdx j (j + 1) he
      omega
    rw [moveSubstep_down_unfold plan completed sIdx j step hs hj,
        moveSubstep_up_unfold plan completed sIdx j step hs hj]
    refine ⟨?_, ?_, ?_, ?_, ?_⟩
    · intro i
      simp only [List.getElem?_set_self hslen, Option.some_bind]
      by_cases hij : i = j
      · rw [if_pos hij, hij]
        rw [List.getElem?_set_ne (by omega : j + 1 ≠ j)]
        rw [List.getElem?_set_self (by omega : j < step.substeps.length)]
        rw [List.getD_eq_getElem _ _ hj, List.getElem?_eq_getElem hj]
      · by_cases hij1 : i = j + 1
        · rw [if_neg hij, if_pos hij1, hij1]
          rw [List.getElem?_set_self (by simp only [List.length_set]; omega)]
          rw [List.getD_eq_getElem _ _ hj0, List.getElem?_eq_getElem hj0]
        · rw [if_neg hij, if_neg hij1]
          rw [List.getElem?_set_ne (fun h => hij1 h.symm)]
          rw [List.getElem?_set_ne (fun h => hij h.symm)]
    · simp [hkey]
    · simp
    · intro k hk1 hk2
      simp [hk1, hk2]
    · refine Prod.ext ?_ ?_
      · dsimp only
        rw [List.set_comm (step.substeps.getD j "") (step.substeps.getD (j + 1) "")
          step.substeps (by omega : j + 1 ≠ j)]
      · dsimp only
        funext k
        by_cases k1 : k = subKey sIdx j <;> by_cases k2 : k = subKey sIdx (j + 1)
        · exact absurd (k1.symm.trans k2) hkey
        · simp [k1, k2, hkey, Ne.symm hkey]
        · simp [k1, k2, hkey, Ne.symm hkey]
        · simp [k1, k2]
  · intro hb
    simp only [moveSubstep, hs]
    rw [if_pos (by omega)]
  · simp only [moveSubstep, hs]
    rw [if_pos (by omega)]

/-- C7 witness: in a step with substeps A, B, C and completion entries
false/true/false for indices 0/1/2, moving the substep at index 1 up equals
moving the substep at index 0 down and yields substeps B, A, C with
completion entries true/false/false. -/
theorem move_substep_swaps_content_and_completion_witness :
    samplePlan.steps[0]? = some sampleStep1
    ∧ 0 + 1 < sampleStep1.substeps.length
    ∧ moveSubstep samplePlan sampleCompleted 0 1 (-1)
        = moveSubstep samplePlan sampleCompleted 0 0 1
    ∧ (moveSubstep samplePlan sampleCompleted 0 0 1).2 (subKey 0 0) = some true
    ∧ (moveSubstep samplePlan sampleCompleted 0 0 1).2 (subKey 0 1) = some false
    ∧ (moveSubstep samplePlan sampleCompleted 0 0 1).2 (subKey 0 2) = some false
    ∧ ((moveSubstep samplePlan sampleCompleted 0 0 1).1.steps[0]?.map Step.substeps)
        = some ["B", "A", "C"] := by
  refine ⟨rfl, by decide, ?_, by decide, by decide, by decide, by decide⟩
  exact ((move_substep_swaps_content_and_completion samplePlan sampleCompleted 0 0
    sampleStep1 rfl).1 (by decide)).2.2.2.2

/-- C8 counterexample: substep A at index 0 is checked, substep B at index 1
is not. Deleting A leaves the completion map untouched, so after the
deletion B sits at index 0 and the checkbox read for position 0 returns
true: B inherits the stale completion flag of the since-deleted item, which
the claim says must not happen. -/
theorem delete_substep_stale_completion_cex :
    ((deleteSubstep samplePlan sampleCompleted8 0 0).1.steps[0]?.map Step.substeps)
        = some ["B", "C"]
    ∧ sampleCompleted8 (subKey 0 1) = some false
    ∧ substepChecked sampleCompleted8 0 1 = false
    ∧ (deleteSubstep samplePlan sampleCompleted8 0 0).2 (subKey 0 0) = some true
    ∧ substepChecked (deleteSubstep samplePlan sampleCompleted8 0 0).2 0 0 = true := by
  decide

/-- C8 amended: `deleteSubstep` removes exactly the substep at the given
index of the given step (later substeps shift down by one) and leaves the
completion map entirely unchanged — it touches neither other steps' keys nor
the same step's; in particular the positional flag stored at the deleted
index survives, so the substep that shifts into that index inherits it. -/
theorem delete_substep_amended
    (plan : DIYPlan) (completed : String → Option Bool) (sIdx subIdx : Nat) (step : Step)
    (hs : plan.steps[sIdx]? = some step) :
    (deleteSubstep plan completed sIdx subIdx).2 = completed
    ∧ ((deleteSubstep plan completed sIdx subIdx).1.steps[sIdx]?.map Step.substeps)
        = some (step.substeps.eraseIdx subIdx)
    ∧ (∀ i, ((deleteSubstep plan completed sIdx subIdx).1.steps[sIdx]?.bind
          (fun st => st.substeps[i]?))
        = if i < subIdx then step.substeps[i]? else step.substeps[i + 1]?)
    ∧ (∀ i, i ≠ sIdx → (deleteSubstep plan completed sIdx subIdx).1.steps[i]? = plan.steps[i]?)
    ∧ (∀ b, completed (subKey sIdx subIdx) = some b →
        substepChecked (deleteSubstep plan completed sIdx subIdx).2 sIdx subIdx = b) := by
  have hslen : sIdx < plan.steps.length := (List.getElem?_eq_some.mp hs).1
  refine ⟨?_, ?_, ?_, ?_, ?_⟩
  · simp [deleteSubstep, hs]
  · simp [deleteSubstep, hs, List.getElem?_set_self hslen]
  · intro i
    simp [deleteSubstep, hs, List.getElem?_set_self hslen, List.getElem?_eraseIdx]
  · intro i hi
    simp [deleteSubstep, hs, List.getElem?_set_ne (fun h => hi h.symm)]
  · intro b hb
    simp [deleteSubstep, hs, substepChecked, hb]

/-- C8 amended witness: deleting substep 0 of step 0 leaves the completion
map unchanged, erases exactly index 0, and the surviving checked flag at
positional key 0-0 is read back as checked for the shifted substep. -/
theorem delete_substep_amended_witness :
    samplePlan.steps[0]? = some sampleStep1
    ∧ (deleteSubstep samplePlan sampleCompleted8 0 0).2 = sampleCompleted8
    ∧ ((deleteSubstep samplePlan sampleCompleted8 0 0).1.steps[0]?.map Step.substeps)
        = some (sampleStep1.substeps.eraseIdx 0)
    ∧ substepChecked (deleteSubstep samplePlan sampleCompleted8 0 0).2 0 0 = true := by
  refine ⟨rfl, ?_, ?_, ?_⟩
  · exact (delete_substep_amended samplePlan sampleCompleted8 0 0 sampleStep1 rfl).1
  · exact (delete_substep_amended samplePlan sampleCompleted8 0 0 sampleStep1 rfl).2.1
  · exact (delete_substep_amended samplePlan sampleCompleted8 0 0 sampleStep1 rfl).2.2.2.2
      true (by decide)

/-- C9: during slideshow playback, while the elapsed time t satisfies
0 ≤ t < duration and the image list is non-empty, the displayed index equals
min(floor((t/duration) * imageCount), imageCount - 1); the index is always
within bounds; and at or after the end of the audio the display is pinned to
the final image. JavaScript float time arithmetic is modelled exactly over
the rationals. -/
theorem slideshow_displayed_index (t d : ℚ) (count : Nat)
    (h0 : 0 ≤ t) (h1 : t < d) (hc : 0 < count) :
    displayedIndex t d count = min ⌊t / d * count⌋ ((count : Int) - 1)
    ∧ 0 ≤ displayedIndex t d count
    ∧ displayedIndex t d count < count
    ∧ (∀ u : ℚ, d ≤ u → displayedIndex u d count = (count : Int) - 1) := by
  have hd : (0:ℚ) < d := lt_of_le_of_lt h0 h1
  have heq : displayedIndex t d count = min ⌊t / d * count⌋ ((count : Int) - 1) := by
    simp [displayedIndex, h1]
  refine ⟨heq, ?_, ?_, ?_⟩
  · rw [heq]
    have hnn : (0:ℚ) ≤ t / d * count := by positivity
    have hfl : (0:Int) ≤ ⌊t / d * count⌋ := Int.floor_nonneg.mpr hnn
    have hcnt : (0:Int) ≤ (count : Int) - 1 := by omega
    exact le_min hfl hcnt
  · rw [heq]
    calc min ⌊t / d * count⌋ ((count : Int) - 1) ≤ (count : Int) - 1 := min_le_right _ _
    _ < (count : Int) := by omega
  · intro u hu
    simp [displayedIndex, not_lt.mpr hu]

/-- C9 witness: with 4 images and an 8 second audio, at playback time 5
seconds the displayed index is floor((5/8)*4) = 2. -/
theorem slideshow_displayed_index_witness :
    ((0:ℚ) ≤ 5 ∧ (5:ℚ) < 8 ∧ (0:Nat) < 4)
    ∧ displayedIndex 5 8 4 = 2 := by
  refine ⟨⟨by norm_num, by norm_num, by norm_num⟩, ?_⟩
  have h := (slideshow_displayed_index 5 8 4 (by norm_num) (by norm_num) (by norm_num)).1
  rw [h]
  norm_num
